import Mathlib

/-!
Shallow embedding of `darts/models/rnn_model.py` and proofs about it.

Tensors are modelled as nested lists of rationals (batch × time-step ×
feature).  External torch components that the file merely calls — the
recurrent cell itself, `nn.Softplus`, `torch.normal`, `nn.GaussianNLLLoss`,
the base-class loss, and random weight initialisation — are modelled as
explicit function parameters: the embedding captures exactly the glue of
`rnn_model.py`, namely which component is applied to which data, with
which constructor arguments.
-/

namespace Darts

/-- A rank-3 tensor: batch × time-step × feature, with rational entries. -/
abbrev Tensor3 := List (List (List ℚ))

/-- Entry lookup `t[b][i][k]`, `none` when out of bounds. -/
def at3 (t : Tensor3) (b i k : ℕ) : Option ℚ :=
  t[b]?.bind fun r => r[i]?.bind fun v => v[k]?

/-- The slice `output[:, :, :ts]`: the first `ts` components of the last
dimension. -/
def sliceLastTo (ts : ℕ) (t : Tensor3) : Tensor3 :=
  t.map fun r => r.map fun v => v.take ts

/-- The slice `output[:, :, ts:]`: the components of the last dimension from
position `ts` on. -/
def sliceLastFrom (ts : ℕ) (t : Tensor3) : Tensor3 :=
  t.map fun r => r.map fun v => v.drop ts

/-- Elementwise application of an activation function to a tensor
(`nn.Softplus()` acts elementwise). -/
def mapT (f : ℚ → ℚ) (t : Tensor3) : Tensor3 :=
  t.map fun r => r.map fun v => v.map f

/-- `RNNModel._means_and_vars_from_output` (rnn_model.py lines 214-219).
`sp` stands for the external elementwise `nn.Softplus()` activation and
`target_size` for `self.model.target_size`. -/
def means_and_vars_from_output (sp : ℚ → ℚ) (target_size : ℕ)
    (output : Tensor3) : Tensor3 × Tensor3 :=
  (sliceLastTo target_size output, mapT sp (sliceLastFrom target_size output))

/-- A Python keyword-argument value (only the shapes the claims need). -/
inductive KwVal
  | nat (n : ℕ)
  | str (s : String)
  | flag (b : Bool)
deriving DecidableEq

/-- A Python `**kwargs` dictionary, as a partial map from names to values. -/
def Kwargs := String → Option KwVal

/-- Python dictionary assignment `kwargs[key] = v`. -/
def Kwargs.set (kw : Kwargs) (key : String) (v : KwVal) : Kwargs :=
  fun s => if s = key then some v else kw s

/-- The `model` argument of `RNNModel.__init__`: either a string naming the
RNN module type, or a user-supplied `nn.Module` instance of abstract
type `μ`. -/
inductive ModelArg (μ : Type)
  | str (s : String)
  | module (m : μ)
deriving DecidableEq

/-- Python `model in ['RNN', 'LSTM', 'GRU']` (line 162); an `nn.Module`
instance never compares equal to a string. -/
def ModelArg.inRNNNames {μ : Type} : ModelArg μ → Bool
  | ModelArg.str s => s = "RNN" || s = "LSTM" || s = "GRU"
  | ModelArg.module _ => false

/-- Python `isinstance(model, nn.Module)` (line 163). -/
def ModelArg.isModuleInstance {μ : Type} : ModelArg μ → Bool
  | ModelArg.str _ => false
  | ModelArg.module _ => true

/-- The attributes `RNNModel.__init__` stores on `self` (lines 167-172),
plus `super_kwargs`, recording the keyword arguments passed to
`TorchForecastingModel.__init__` (the base class lives outside this file;
only the arguments it receives are modelled). -/
structure RNNModelState (μ : Type) where
  super_kwargs : Kwargs
  rnn_type_or_module : ModelArg μ
  dropout : ℚ
  hidden_dim : ℕ
  training_length : ℕ
  is_recurrent : Bool
  is_probabilistic : Bool

/-- Lines 157-158: `kwargs['input_chunk_length'] = input_chunk_length` then
`kwargs['output_chunk_length'] = 1`, the dictionary handed to
`super().__init__(**kwargs)` on line 159. -/
def RNNModel.init_super_kwargs (input_chunk_length : ℕ) (kwargs : Kwargs) :
    Kwargs :=
  (kwargs.set "input_chunk_length" (KwVal.nat input_chunk_length)).set
    "output_chunk_length" (KwVal.nat 1)

/-- `RNNModel.__init__` (lines 104-172).  Raising is modelled with `Except`.
`raise_if_not(cond, msg)` raises exactly when `cond` is false, and is only
reached when `model` is not one of the three strings, so the init fails iff
`model` is neither a listed string nor an `nn.Module` instance.  The
`@random_method` decorator and the `random_state` argument only seed torch's
random number generator and are not modelled. -/
def RNNModel.init {μ : Type} (model : ModelArg μ) (input_chunk_length : ℕ)
    (hidden_dim : ℕ) (dropout : ℚ) (training_length : ℕ)
    (probabilistic : Bool) (kwargs : Kwargs) :
    Except String (RNNModelState μ) :=
  let kw := RNNModel.init_super_kwargs input_chunk_length kwargs
  if !model.inRNNNames && !model.isModuleInstance then
    Except.error "is not a valid RNN model. Please specify RNN, LSTM, GRU, or give your own PyTorch nn.Module"
  else
    Except.ok ⟨kw, model, dropout, hidden_dim, training_length, true,
      probabilistic⟩

/-- A concrete caller dictionary that already binds `output_chunk_length`,
used to exhibit that `__init__` overrides it. -/
def kwargsEx : Kwargs :=
  fun s => if s = "output_chunk_length" then some (KwVal.nat 99) else none

/-- Modelled from the spec: `darts.utils.data.ShiftedDataset` is repository
code outside this file, and the spec only says the model "builds a shifted
training dataset", so the dataset is modelled as a record of the arguments
its constructor receives, over an abstract time-series type `τ`. -/
structure ShiftedDataset (τ : Type) where
  target_series : List τ
  covariates : Option (List τ)
  length : ℕ
  shift_covariates : Bool
  shift : ℕ
deriving DecidableEq

/-- `RNNModel._build_train_dataset` (lines 186-193). -/
def RNNModel.build_train_dataset {μ τ : Type} (self : RNNModelState μ)
    (target : List τ) (covariates : Option (List τ)) : ShiftedDataset τ :=
  ⟨target, covariates, self.training_length, true, 1⟩

/-- The fitted network `self.model` as used at prediction and loss time: its
forward function, (input, optional hidden state) ↦ (output, hidden state),
and its `target_size` attribute.  `H` is the abstract type of hidden
states. -/
structure RuntimeModel (H : Type) where
  run : Tensor3 → Option H → Tensor3 × H
  target_size : ℕ

/-- `RNNModel._produce_predict_output` (lines 206-212).  `normal` stands for
the external sampler `torch.normal`, which draws a Gaussian sample
parameterized by its two tensor arguments; `sp` for `nn.Softplus()`. -/
def RNNModel.produce_predict_output {H : Type} (is_probabilistic : Bool)
    (model : RuntimeModel H) (sp : ℚ → ℚ)
    (normal : Tensor3 → Tensor3 → Tensor3)
    (input : Tensor3) (last_hidden_state : Option H) : Tensor3 × H :=
  if is_probabilistic then
    let oh := model.run input last_hidden_state
    let mv := means_and_vars_from_output sp model.target_size oh.1
    (normal mv.1 mv.2, oh.2)
  else
    model.run input last_hidden_state

/-- `RNNModel._compute_loss` (lines 198-204).  `gaussian_nll_sum` stands for
the external `nn.GaussianNLLLoss(reduction='sum')` criterion applied as
`criterion(input, target, var)`; `super_loss` for the inherited
`TorchForecastingModel._compute_loss`, which lives outside this file. -/
def RNNModel.compute_loss (is_probabilistic : Bool) (target_size : ℕ)
    (sp : ℚ → ℚ) (gaussian_nll_sum : Tensor3 → Tensor3 → Tensor3 → ℚ)
    (super_loss : Tensor3 → Tensor3 → ℚ)
    (output target : Tensor3) : ℚ :=
  if is_probabilistic then
    let mv := means_and_vars_from_output sp target_size output
    gaussian_nll_sum mv.1 target mv.2
  else
    super_loss output target

/-- A `torch.nn.Linear` layer: `weight` has one row per output feature and
`bias` one entry per output feature. -/
structure Linear where
  weight : List (List ℚ)
  bias : List ℚ
deriving DecidableEq

/-- Application of a linear layer to one feature vector: `W·v + b`,
rowwise. -/
def Linear.applyVec (l : Linear) (v : List ℚ) : List ℚ :=
  (l.weight.zip l.bias).map fun wb =>
    ((wb.1.zip v).map fun p => p.1 * p.2).sum + wb.2

/-- `nn.Linear(in_features, out_features)`; the random initialisation of the
entries is supplied as functions `wInit` (row, column ↦ weight entry) and
`bInit` (row ↦ bias entry). -/
def mkLinear (in_features out_features : ℕ) (wInit : ℕ → ℕ → ℚ)
    (bInit : ℕ → ℚ) : Linear :=
  ⟨(List.range out_features).map fun i =>
      (List.range in_features).map (wInit i),
    (List.range out_features).map bInit⟩

/-- A `nn.Linear` layer applied to a rank-3 tensor acts on the last
dimension: `applyVec` at every time step of every batch element. -/
def applyLinear3 (l : Linear) (t : Tensor3) : Tensor3 :=
  t.map fun r => r.map l.applyVec

/-- The record of arguments `_RNNModule.__init__` passes to
`getattr(nn, name)(input_size, hidden_dim, 1, batch_first=True,
dropout=dropout)` on line 78; the torch recurrent module itself is
external. -/
structure TorchRNN where
  typeName : String
  input_size : ℕ
  hidden_size : ℕ
  num_layers : ℕ
  batch_first : Bool
  dropout : ℚ
deriving DecidableEq

/-- The state `_RNNModule.__init__` stores (lines 70-83). -/
structure RNNModule where
  target_size : ℕ
  name : String
  is_probabilistic : Bool
  rnn : TorchRNN
  V : Linear
deriving DecidableEq

/-- `_RNNModule.__init__` (lines 26-83): stores the parameters, constructs
the recurrent module `getattr(nn, name)(input_size, hidden_dim, 1,
batch_first=True, dropout=dropout)` and the output layer
`nn.Linear(hidden_dim, target_size + int(probabilistic) * target_size)`;
Python's `int(probabilistic)` is `1` for `True` and `0` for `False`. -/
def RNNModule.init (name : String) (input_size hidden_dim : ℕ)
    (target_size : ℕ) (dropout : ℚ) (probabilistic : Bool)
    (wInit : ℕ → ℕ → ℚ) (bInit : ℕ → ℚ) : RNNModule :=
  ⟨target_size, name, probabilistic,
    ⟨name, input_size, hidden_dim, 1, true, dropout⟩,
    mkLinear hidden_dim
      (target_size + (if probabilistic then 1 else 0) * target_size)
      wInit bInit⟩

/-- Split a list into consecutive chunks of `k` elements each, the way a
contiguous tensor is regrouped; returns `[]` for `k = 0` (torch would reject
that reshape). -/
def chunks {α : Type} (k : ℕ) : List α → List (List α)
  | [] => []
  | a :: l =>
    if _h : k = 0 then []
    else (a :: l).take k :: chunks k ((a :: l).drop k)
termination_by l => l.length
decreasing_by simp [List.length_drop]; omega

/-- `t.view(batch_size, -1, k)` on a contiguous rank-3 tensor: flatten,
regroup into rows of `k` entries, and regroup the rows into `batch_size`
batches; the middle dimension is inferred from the element count. -/
def view3 (t : Tensor3) (batch_size k : ℕ) : Tensor3 :=
  chunks (t.flatten.flatten.length / (batch_size * k))
    (chunks k t.flatten.flatten)

/-- The tensor `t` has shape `(b, L, k)`. -/
def hasShape3 (t : Tensor3) (b L k : ℕ) : Prop :=
  t.length = b ∧ ∀ r ∈ t, r.length = L ∧ ∀ v ∈ r, v.length = k

instance (t : Tensor3) (b L k : ℕ) : Decidable (hasShape3 t b L k) := by
  unfold hasShape3
  infer_instance

/-- `_RNNModule.forward` (lines 85-99): run the recurrent module (with the
given hidden state if there is one), apply `V` to every hidden state, and
reshape to `(batch_size, -1, target_size + int(is_probabilistic) *
target_size)`.  `rnnEval` is the forward function of the external torch
recurrent module `self.rnn`; `H` is the abstract type of its hidden
state. -/
def RNNModule.forward {H : Type} (rnnEval : Tensor3 → Option H → Tensor3 × H)
    (m : RNNModule) (x : Tensor3) (h : Option H) : Tensor3 × H :=
  let batch_size := x.length
  let r := match h with
    | none => rnnEval x none
    | some hv => rnnEval x (some hv)
  let predictions := applyLinear3 m.V r.1
  (view3 predictions batch_size
      (m.target_size + (if m.is_probabilistic then 1 else 0) * m.target_size),
    r.2)

/-- The result of `RNNModel._create_model`: either a freshly built
`_RNNModule` or the value of `self.rnn_type_or_module` passed through. -/
inductive CreatedModel (μ : Type)
  | built (m : RNNModule)
  | passthrough (m : ModelArg μ)

/-- `RNNModel._create_model` (lines 174-184).  The string-membership test
`self.rnn_type_or_module in ['RNN', 'LSTM', 'GRU']` is spelt out on the two
constructors of `ModelArg`; the random initialisation of the new `nn.Linear`
layer is supplied as `wInit` and `bInit`. -/
def RNNModel.create_model {μ : Type} (self : RNNModelState μ)
    (input_dim output_dim : ℕ) (wInit : ℕ → ℕ → ℚ) (bInit : ℕ → ℚ) :
    CreatedModel μ :=
  match self.rnn_type_or_module with
  | ModelArg.str s =>
    if s = "RNN" || s = "LSTM" || s = "GRU" then
      CreatedModel.built (RNNModule.init s input_dim self.hidden_dim
        output_dim self.dropout self.is_probabilistic wInit bInit)
    else CreatedModel.passthrough (ModelArg.str s)
  | ModelArg.module m => CreatedModel.passthrough (ModelArg.module m)

end Darts

namespace Darts

theorem at3_sliceLastTo (ts : ℕ) (t : Tensor3) (b i k : ℕ) (hk : k < ts) :
    at3 (sliceLastTo ts t) b i k = at3 t b i k := by
  unfold at3 sliceLastTo
  rw [List.getElem?_map]
  cases t[b]? with
  | none => rfl
  | some r =>
    simp only [Option.map_some', Option.some_bind, List.getElem?_map]
    cases r[i]? with
    | none => rfl
    | some v =>
      simp [List.getElem?_take, hk]

theorem at3_mapT_sliceLastFrom (sp : ℚ → ℚ) (ts : ℕ) (t : Tensor3)
    (b i k : ℕ) :
    at3 (mapT sp (sliceLastFrom ts t)) b i k = (at3 t b i (ts + k)).map sp := by
  unfold at3 sliceLastFrom mapT
  rw [List.map_map, List.getElem?_map]
  cases t[b]? with
  | none => rfl
  | some r =>
    simp only [Option.map_some', Option.some_bind, Function.comp,
      List.map_map, List.getElem?_map]
    cases r[i]? with
    | none => rfl
    | some v =>
      simp [List.getElem?_drop]

/-- C2: `RNNModel._means_and_vars_from_output` returns the pair
`(means, vars)` where `means` agrees with the first `target_size` components
of the last dimension of `output` and `vars k` is the Softplus activation
applied to component `target_size + k` of `output`; the embedding is a pure
function of `output`, so the input tensor is not modified. -/
theorem means_and_vars_from_output_spec (sp : ℚ → ℚ) (ts : ℕ)
    (output : Tensor3) (b i k : ℕ) (hk : k < ts) :
    at3 (means_and_vars_from_output sp ts output).1 b i k = at3 output b i k ∧
    at3 (means_and_vars_from_output sp ts output).2 b i k =
      (at3 output b i (ts + k)).map sp := by
  exact ⟨at3_sliceLastTo ts output b i k hk,
    at3_mapT_sliceLastFrom sp ts output b i k⟩

/-- Witness for C2 at a concrete input: `sp` doubles its argument,
`target_size = 2`, `output = [[[3, 4, 5]]]`. -/
theorem means_and_vars_from_output_spec_witness :
    at3 (means_and_vars_from_output (fun q => 2 * q) 2 [[[3, 4, 5]]]).1 0 0 1
        = at3 [[[3, 4, 5]]] 0 0 1 ∧
    at3 (means_and_vars_from_output (fun q => 2 * q) 2 [[[3, 4, 5]]]).2 0 0 0
        = (at3 [[[3, 4, 5]]] 0 0 (2 + 0)).map (fun q => 2 * q) := by
  refine ⟨(means_and_vars_from_output_spec (fun q => 2 * q) 2 [[[3, 4, 5]]]
    0 0 1 (by decide)).1,
    (means_and_vars_from_output_spec (fun q => 2 * q) 2 [[[3, 4, 5]]]
    0 0 0 (by decide)).2⟩

/-- C5: `RNNModel.__init__` succeeds exactly when the `model` argument is one
of the strings "RNN", "LSTM", "GRU" or an `nn.Module` instance, and on
success stores the argument unchanged as `rnn_type_or_module`. -/
theorem rnn_init_model_validation {μ : Type} (model : ModelArg μ)
    (icl hd : ℕ) (d : ℚ) (tl : ℕ) (p : Bool) (kwargs : Kwargs) :
    ((model.inRNNNames || model.isModuleInstance) = true →
      ∃ st : RNNModelState μ,
        RNNModel.init model icl hd d tl p kwargs = Except.ok st ∧
          st.rnn_type_or_module = model) ∧
    ((model.inRNNNames || model.isModuleInstance) = false →
      ∃ e, RNNModel.init model icl hd d tl p kwargs = Except.error e) := by
  constructor <;> intro h
  · have hc : ¬((!model.inRNNNames && !model.isModuleInstance) = true) := by
      simp only [Bool.or_eq_true] at h
      rcases h with h | h <;> simp [h]
    refine ⟨⟨RNNModel.init_super_kwargs icl kwargs, model, d, hd, tl, true,
      p⟩, ?_, rfl⟩
    unfold RNNModel.init
    rw [if_neg hc]
  · have hc : (!model.inRNNNames && !model.isModuleInstance) = true := by
      simp only [Bool.or_eq_false_iff] at h
      simp [h.1, h.2]
    exact ⟨_, by unfold RNNModel.init; rw [if_pos hc]⟩

/-- Witness for C5: the string "LSTM" is accepted and stored unchanged. -/
theorem rnn_init_model_validation_witness :
    ∃ st : RNNModelState Unit,
      RNNModel.init (ModelArg.str "LSTM") 12 25 0 24 false (fun _ => none)
          = Except.ok st ∧
        st.rnn_type_or_module = ModelArg.str "LSTM" :=
  (rnn_init_model_validation (ModelArg.str "LSTM") 12 25 0 24 false
    (fun _ => none)).1 (by decide)

/-- C8: the dictionary handed to `TorchForecastingModel.__init__` maps
`output_chunk_length` to `1` and `input_chunk_length` to the
`input_chunk_length` parameter, whatever entries the caller put in `kwargs`,
leaves every other key as the caller set it, and is exactly the dictionary
recorded by a successful `RNNModel.init`. -/
theorem rnn_init_super_kwargs_spec (icl : ℕ) (kwargs : Kwargs) :
    (RNNModel.init_super_kwargs icl kwargs "output_chunk_length"
        = some (KwVal.nat 1) ∧
      RNNModel.init_super_kwargs icl kwargs "input_chunk_length"
        = some (KwVal.nat icl) ∧
      ∀ key, key ≠ "output_chunk_length" → key ≠ "input_chunk_length" →
        RNNModel.init_super_kwargs icl kwargs key = kwargs key) ∧
    ∀ (μ : Type) (model : ModelArg μ) (hd : ℕ) (d : ℚ) (tl : ℕ) (p : Bool)
      (st : RNNModelState μ),
      RNNModel.init model icl hd d tl p kwargs = Except.ok st →
        st.super_kwargs = RNNModel.init_super_kwargs icl kwargs := by
  refine ⟨⟨?_, ?_, ?_⟩, ?_⟩
  · simp [RNNModel.init_super_kwargs, Kwargs.set]
  · simp [RNNModel.init_super_kwargs, Kwargs.set]
  · intro key h1 h2
    simp [RNNModel.init_super_kwargs, Kwargs.set, h1, h2]
  · intro μ model hd d tl p st hok
    unfold RNNModel.init at hok
    split at hok
    · exact absurd hok (by simp)
    · cases hok
      rfl

/-- Witness for C8: with `input_chunk_length = 7` and a caller dictionary
that sets `output_chunk_length` to `99`, the base class still receives
`output_chunk_length = 1`, and an unrelated key is left untouched. -/
theorem rnn_init_super_kwargs_spec_witness :
    RNNModel.init_super_kwargs 7 kwargsEx "output_chunk_length"
        = some (KwVal.nat 1) ∧
      RNNModel.init_super_kwargs 7 kwargsEx "batch_size"
        = kwargsEx "batch_size" :=
  ⟨(rnn_init_super_kwargs_spec 7 kwargsEx).1.1,
    (rnn_init_super_kwargs_spec 7 kwargsEx).1.2.2 "batch_size" (by decide)
      (by decide)⟩

/-- C1: `RNNModel._build_train_dataset` returns a `ShiftedDataset` built from
exactly the given target and covariates, with `shift = 1`,
`length = self.training_length` and `shift_covariates = True`. -/
theorem build_train_dataset_spec {μ τ : Type} (self : RNNModelState μ)
    (target : List τ) (covariates : Option (List τ)) :
    (RNNModel.build_train_dataset self target covariates).target_series
        = target ∧
    (RNNModel.build_train_dataset self target covariates).covariates
        = covariates ∧
    (RNNModel.build_train_dataset self target covariates).shift = 1 ∧
    (RNNModel.build_train_dataset self target covariates).length
        = self.training_length ∧
    (RNNModel.build_train_dataset self target covariates).shift_covariates
        = true :=
  ⟨rfl, rfl, rfl, rfl, rfl⟩

/-- C3: with `is_probabilistic = False`, `_produce_predict_output` returns
exactly the pair the underlying model produces on
`(input, last_hidden_state)`; with `is_probabilistic = True` it returns the
Gaussian sample `torch.normal(means, vars)` of the means and variances
obtained from `_means_and_vars_from_output` on the model's output, paired
with the model's returned hidden state. -/
theorem produce_predict_output_spec {H : Type} (model : RuntimeModel H)
    (sp : ℚ → ℚ) (normal : Tensor3 → Tensor3 → Tensor3)
    (input : Tensor3) (h : Option H) :
    RNNModel.produce_predict_output false model sp normal input h
        = model.run input h ∧
    RNNModel.produce_predict_output true model sp normal input h
        = (normal
            (means_and_vars_from_output sp model.target_size
              (model.run input h).1).1
            (means_and_vars_from_output sp model.target_size
              (model.run input h).1).2,
          (model.run input h).2) :=
  ⟨rfl, rfl⟩

/-- C4: with `is_probabilistic = True`, `_compute_loss` is the
`nn.GaussianNLLLoss(reduction='sum')` criterion evaluated on the means, the
target and the variances obtained from `_means_and_vars_from_output`; with
`is_probabilistic = False` it is the `TorchForecastingModel` base-class loss
on the same output and target. -/
theorem compute_loss_spec (target_size : ℕ) (sp : ℚ → ℚ)
    (gaussian_nll_sum : Tensor3 → Tensor3 → Tensor3 → ℚ)
    (super_loss : Tensor3 → Tensor3 → ℚ) (output target : Tensor3) :
    RNNModel.compute_loss true target_size sp gaussian_nll_sum super_loss
        output target
      = gaussian_nll_sum
          (means_and_vars_from_output sp target_size output).1 target
          (means_and_vars_from_output sp target_size output).2 ∧
    RNNModel.compute_loss false target_size sp gaussian_nll_sum super_loss
        output target
      = super_loss output target :=
  ⟨rfl, rfl⟩

theorem chunks_cons {α : Type} (k : ℕ) (hk : k ≠ 0) (a : α) (l : List α) :
    chunks k (a :: l) = (a :: l).take k :: chunks k ((a :: l).drop k) := by
  rw [chunks, dif_neg hk]

theorem chunks_shape {α : Type} (k : ℕ) (hk : 0 < k) :
    ∀ (n : ℕ) (l : List α), l.length = n * k →
      (chunks k l).length = n ∧
      (∀ c ∈ chunks k l, c.length = k) ∧
      (∀ c ∈ chunks k l, ∀ x ∈ c, x ∈ l) := by
  intro n
  induction n with
  | zero =>
    intro l hl
    have hnil : l = [] := List.eq_nil_of_length_eq_zero (by simpa using hl)
    subst hnil
    rw [chunks]
    simp
  | succ n ih =>
    intro l hl
    have hk0 : k ≠ 0 := Nat.pos_iff_ne_zero.mp hk
    have hpos : 0 < l.length := by
      rw [hl]
      exact Nat.mul_pos (Nat.succ_pos n) hk
    obtain ⟨a, l', rfl⟩ := List.exists_cons_of_ne_nil
      (List.length_pos.mp hpos)
    have hlen : (a :: l').length = (n + 1) * k := hl
    have hkle : k ≤ (a :: l').length := by
      rw [hlen, Nat.succ_mul]
      omega
    have hdrop : ((a :: l').drop k).length = n * k := by
      rw [List.length_drop, hlen, Nat.succ_mul]
      omega
    obtain ⟨ihlen, ihchunk, ihmem⟩ := ih ((a :: l').drop k) hdrop
    rw [chunks_cons k hk0]
    refine ⟨by simp [ihlen], ?_, ?_⟩
    · intro c hc
      rcases List.mem_cons.mp hc with rfl | hc
      · rw [List.length_take]
        omega
      · exact ihchunk c hc
    · intro c hc x hx
      rcases List.mem_cons.mp hc with rfl | hc
      · exact List.mem_of_mem_take hx
      · exact List.mem_of_mem_drop (ihmem c hc x hx)

theorem flatten_length_const {α : Type} (k : ℕ) :
    ∀ (r : List (List α)), (∀ v ∈ r, v.length = k) →
      r.flatten.length = r.length * k := by
  intro r
  induction r with
  | nil => intro _; simp
  | cons v t ih =>
    intro hv
    simp only [List.flatten_cons, List.length_append, List.length_cons]
    rw [ih fun w hw => hv w (List.mem_cons_of_mem v hw),
      hv v (List.mem_cons_self v t)]
    ring

theorem tensor_flatten_length (L k : ℕ) :
    ∀ (t : Tensor3), (∀ r ∈ t, r.length = L ∧ ∀ v ∈ r, v.length = k) →
      t.flatten.flatten.length = t.length * (L * k) := by
  intro t
  induction t with
  | nil => intro _; simp
  | cons r t ih =>
    intro hr
    simp only [List.flatten_cons, List.flatten_append, List.length_append,
      List.length_cons]
    obtain ⟨hL, hv⟩ := hr r (List.mem_cons_self r t)
    rw [ih fun w hw => hr w (List.mem_cons_of_mem r hw),
      flatten_length_const k r hv, hL]
    ring

theorem applyLinear3_shape (V : Linear) (t : Tensor3) (b L : ℕ)
    (h1 : t.length = b) (h2 : ∀ r ∈ t, r.length = L) :
    hasShape3 (applyLinear3 V t) b L (V.weight.zip V.bias).length := by
  refine ⟨by simp [applyLinear3, h1], ?_⟩
  intro r hr
  simp only [applyLinear3, List.mem_map] at hr
  obtain ⟨r0, hr0, rfl⟩ := hr
  refine ⟨by simp [h2 r0 hr0], ?_⟩
  intro v hv
  simp only [List.mem_map] at hv
  obtain ⟨v0, _, rfl⟩ := hv
  simp [Linear.applyVec]

theorem mkLinear_zip_length (i o : ℕ) (wInit : ℕ → ℕ → ℚ) (bInit : ℕ → ℚ) :
    ((mkLinear i o wInit bInit).weight.zip
      (mkLinear i o wInit bInit).bias).length = o := by
  simp [mkLinear, List.length_zip]

theorem view3_shape (t : Tensor3) (b L k : ℕ) (hb : 0 < b) (hL : 0 < L)
    (hk : 0 < k) (hlen : t.flatten.flatten.length = b * (L * k)) :
    hasShape3 (view3 t b k) b L k := by
  have hmid : t.flatten.flatten.length / (b * k) = L := by
    rw [hlen]
    have hc : b * (L * k) = (b * k) * L := by ring
    rw [hc, Nat.mul_div_cancel_left L (Nat.mul_pos hb hk)]
  obtain ⟨hrows_len, hrows_chunk, _⟩ :=
    chunks_shape k hk (b * L) t.flatten.flatten (by rw [hlen]; ring)
  obtain ⟨hlen2, hchunk2, hmem2⟩ :=
    chunks_shape L hL b (chunks k t.flatten.flatten) (by rw [hrows_len])
  unfold view3
  rw [hmid]
  exact ⟨hlen2, fun c hc =>
    ⟨hchunk2 c hc, fun v hv => hrows_chunk v (hmem2 c hc v hv)⟩⟩

theorem forward_fst {H : Type} (rnnEval : Tensor3 → Option H → Tensor3 × H)
    (m : RNNModule) (x : Tensor3) (h : Option H) :
    (RNNModule.forward rnnEval m x h).1
      = view3 (applyLinear3 m.V (rnnEval x h).1) x.length
          (m.target_size
            + (if m.is_probabilistic then 1 else 0) * m.target_size) := by
  cases h <;> rfl

/-- C9: `_RNNModule.__init__` constructs its recurrent module with
`num_layers = 1` and `batch_first = True` whatever `dropout` is supplied:
the stored module is the record of the torch class named by `name` applied
to `(input_size, hidden_dim, 1)` with `batch_first=True` and the given
dropout. -/
theorem rnn_module_rnn_construction (name : String)
    (input_size hidden_dim target_size : ℕ) (dropout : ℚ)
    (probabilistic : Bool) (wInit : ℕ → ℕ → ℚ) (bInit : ℕ → ℚ) :
    (RNNModule.init name input_size hidden_dim target_size dropout
        probabilistic wInit bInit).rnn
      = ⟨name, input_size, hidden_dim, 1, true, dropout⟩ := rfl

/-- C6: when `rnn_type_or_module` is one of the strings "RNN", "LSTM",
"GRU", `_create_model` builds an `_RNNModule` whose name is that string,
whose input size is `input_dim`, whose `target_size` is `output_dim`, and
whose hidden dimension, dropout and probabilistic flag are the stored
hyperparameters; when it is a user-supplied module, that module is returned
unchanged. -/
theorem create_model_spec {μ : Type} (self : RNNModelState μ)
    (input_dim output_dim : ℕ) (wInit : ℕ → ℕ → ℚ) (bInit : ℕ → ℚ) :
    (∀ s, self.rnn_type_or_module = ModelArg.str s →
      (s = "RNN" || s = "LSTM" || s = "GRU") = true →
      ∃ mod, RNNModel.create_model self input_dim output_dim wInit bInit
          = CreatedModel.built mod ∧
        mod.name = s ∧
        mod.rnn.input_size = input_dim ∧
        mod.target_size = output_dim ∧
        mod.rnn.hidden_size = self.hidden_dim ∧
        mod.rnn.dropout = self.dropout ∧
        mod.is_probabilistic = self.is_probabilistic) ∧
    (∀ m, self.rnn_type_or_module = ModelArg.module m →
      RNNModel.create_model self input_dim output_dim wInit bInit
        = CreatedModel.passthrough (ModelArg.module m)) := by
  constructor
  · intro s hs hvalid
    refine ⟨RNNModule.init s input_dim self.hidden_dim output_dim
      self.dropout self.is_probabilistic wInit bInit, ?_,
      rfl, rfl, rfl, rfl, rfl, rfl⟩
    unfold RNNModel.create_model
    rw [hs]
    simp only [hvalid, if_pos]
  · intro m hm
    unfold RNNModel.create_model
    rw [hm]

/-- Witness for C6: a model holding the string "GRU" builds a module named
"GRU" with the requested dimensions. -/
theorem create_model_spec_witness :
    ∃ mod, RNNModel.create_model
        (⟨fun _ => none, ModelArg.str "GRU", 0, 25, 24, true, false⟩ :
          RNNModelState Unit) 3 2 (fun _ _ => 0) (fun _ => 0)
          = CreatedModel.built mod ∧
      mod.name = "GRU" ∧
      mod.rnn.input_size = 3 ∧
      mod.target_size = 2 ∧
      mod.rnn.hidden_size = 25 ∧
      mod.rnn.dropout = 0 ∧
      mod.is_probabilistic = false :=
  (create_model_spec
      (⟨fun _ => none, ModelArg.str "GRU", 0, 25, 24, true, false⟩ :
        RNNModelState Unit) 3 2 (fun _ _ => 0) (fun _ => 0)).1
    "GRU" rfl (by decide)

/-- C7: on an input of shape `(b, L, input_size)` whose recurrent pass
produces hidden states of shape `(b, L, hidden_dim)`, the first tensor
returned by `_RNNModule.forward` has shape `(b, L, target_size)` when
`probabilistic` is false and `(b, L, 2 * target_size)` when it is true,
because `V` is built with `target_size + int(probabilistic) * target_size`
output features. -/
theorem rnn_module_forward_shape {H : Type}
    (rnnEval : Tensor3 → Option H → Tensor3 × H) (name : String)
    (input_size hidden_dim target_size : ℕ) (dropout : ℚ)
    (probabilistic : Bool) (wInit : ℕ → ℕ → ℚ) (bInit : ℕ → ℚ)
    (x : Tensor3) (h : Option H) (b L : ℕ)
    (hb : 0 < b) (hL : 0 < L) (hts : 0 < target_size)
    (hx : hasShape3 x b L input_size)
    (hrnn : hasShape3 (rnnEval x h).1 b L hidden_dim) :
    hasShape3
      (RNNModule.forward rnnEval
        (RNNModule.init name input_size hidden_dim target_size dropout
          probabilistic wInit bInit) x h).1
      b L (if probabilistic then 2 * target_size else target_size) := by
  rw [forward_fst]
  have hname : (RNNModule.init name input_size hidden_dim target_size dropout
      probabilistic wInit bInit).target_size
        + (if (RNNModule.init name input_size hidden_dim target_size dropout
            probabilistic wInit bInit).is_probabilistic then 1 else 0)
          * (RNNModule.init name input_size hidden_dim target_size dropout
            probabilistic wInit bInit).target_size
      = if probabilistic then 2 * target_size else target_size := by
    cases probabilistic <;> simp [RNNModule.init, Nat.two_mul]
  rw [hname]
  have hkpos : 0 < if probabilistic then 2 * target_size else target_size := by
    cases probabilistic <;> simp <;> omega
  have hVlen : (((RNNModule.init name input_size hidden_dim target_size
        dropout probabilistic wInit bInit).V.weight.zip
      (RNNModule.init name input_size hidden_dim target_size dropout
        probabilistic wInit bInit).V.bias).length)
      = if probabilistic then 2 * target_size else target_size := by
    show ((mkLinear hidden_dim
        (target_size + (if probabilistic then 1 else 0) * target_size)
        wInit bInit).weight.zip
      (mkLinear hidden_dim
        (target_size + (if probabilistic then 1 else 0) * target_size)
        wInit bInit).bias).length
        = if probabilistic then 2 * target_size else target_size
    rw [mkLinear_zip_length]
    cases probabilistic <;> simp [Nat.two_mul]
  have hpred : hasShape3
      (applyLinear3 (RNNModule.init name input_size hidden_dim target_size
        dropout probabilistic wInit bInit).V (rnnEval x h).1)
      b L (if probabilistic then 2 * target_size else target_size) := by
    rw [← hVlen]
    exact applyLinear3_shape _ _ b L hrnn.1 fun r hr => (hrnn.2 r hr).1
  rw [hx.1]
  apply view3_shape _ b L _ hb hL hkpos
  have hflat := tensor_flatten_length L
    (if probabilistic then 2 * target_size else target_size) _ hpred.2
  rw [hflat, hpred.1]

/-- Witness for C7 at a concrete one-element batch: a non-probabilistic
module with `target_size = 1` maps a `(1, 1, 1)` input to a `(1, 1, 1)`
output. -/
theorem rnn_module_forward_shape_witness :
    hasShape3
      (RNNModule.forward (fun _ _ => ([[[1, 2]]], ()))
        (RNNModule.init "RNN" 1 2 1 0 false (fun _ _ => 1) (fun _ => 0))
        [[[5]]] none).1
      1 1 (if false then 2 * 1 else 1) :=
  rnn_module_forward_shape (fun _ _ => ([[[1, 2]]], ())) "RNN" 1 2 1 0 false
    (fun _ _ => 1) (fun _ => 0) [[[5]]] none 1 1 (by decide) (by decide)
    (by decide) (by decide) (by decide)

end Darts
